import Mathlib

/-
Shallow embedding of the "dark-image-bot" Telegram bot (src/main.py).

The handler `imagine_command` validates the prompt, posts a progress
notification, calls the image-generation API, and delivers the result
through a three-tier fallback chain (download bytes / send by URL /
send URL as text) implemented with nested try-except blocks.

Every external call (Telegram sends/edits/deletes, the generation API,
the HTTP download) is modelled through an `Oracle` that fixes the result
of each call site; the handler is then a pure function from the command
arguments and the oracle to a `Run`: the list of external calls it
performed (the trace, in order) together with a terminal `Outcome`.
An exception raised by an external call is modelled by the corresponding
`Ok` field of the oracle being `false` (or the `Option` being `none`);
Python control flow — which try-except catches what — is translated
branch by branch from src/main.py.
-/

namespace DarkImageBot

/-- Oracle fixing the result of every external call site reachable in one
handling of an update.  `genResult = none` models `client.images.generate`
raising; `genResult = some urls` models a response whose `data` holds the
given URLs (`data[0].url` raises when the list is empty).  `download = none`
models `requests.get` raising; `download = some (status, body)` models a
response with that status code and body bytes.  The Boolean fields model
success of the Telegram calls at each call site of src/main.py. -/
structure Oracle where
  usageReplyOk : Bool
  shortReplyOk : Bool
  longReplyOk : Bool
  progressOk : Bool
  genResult : Option (List String)
  download : Option (Nat × List Nat)
  sendBytesOk : Bool
  deleteAOk : Bool
  sendUrlOk : Bool
  deleteBOk : Bool
  editUrlTextOk : Bool
  editErrorOk : Bool
  reminderOk : Bool
deriving DecidableEq, Repr

/-- Request record sent to `client.images.generate` (src/main.py lines 89-94). -/
structure GenRequest where
  model : String
  prompt : String
  n : Nat
  size : String
deriving DecidableEq, Repr

/-- The generation request built by `imagine_command` for a given prompt,
exactly as in src/main.py lines 89-94. -/
def genRequest (p : String) : GenRequest :=
  { model := "provider-1/FLUX.1-kontext-pro", prompt := p, n := 1, size := "1024*1024" }

/-- One external call performed by a handler, with the arguments it was
given and (for the fallible user-visible Telegram calls) whether it
succeeded, as fixed by the oracle. -/
inductive Event where
  | replyText (msg : String) (ok : Bool)
  | genCall (req : GenRequest)
  | httpGet (url : String) (result : Option (Nat × List Nat))
  | sendPhotoBytes (content : List Nat) (caption : String) (ok : Bool)
  | sendPhotoUrl (url : String) (caption : String) (ok : Bool)
  | deleteMsg (ok : Bool)
  | editMsg (text : String) (ok : Bool)
deriving DecidableEq, Repr

/-- Delivery tier of a successful delivery, following the spec taxonomy. -/
inductive Via where
  | download
  | remoteUrl
  | textFallback
deriving DecidableEq, Repr

/-- Terminal outcome of one handling of an update.  `usageHint` and
`validationError` are the early returns of lines 64-81; `delivered` the
three success paths; `generationFailed` the outer except entered from the
generation call (or URL extraction); `failed` the outer except entered
from a failure of the final text-fallback edit; `raised` an exception
escaping the handler (an external call failed with nothing left to catch
it). -/
inductive Outcome where
  | usageHint
  | validationError
  | delivered (via : Via)
  | generationFailed
  | failed
  | raised
deriving DecidableEq, Repr

/-- Result of one handling: ordered trace of external calls plus outcome. -/
structure Run where
  trace : List Event
  outcome : Outcome
deriving DecidableEq, Repr

/-- Characters of a string with surrounding whitespace removed. -/
def stripChars (cs : List Char) : List Char :=
  ((cs.dropWhile Char.isWhitespace).reverse.dropWhile Char.isWhitespace).reverse

/-- Python `str.strip()`: remove leading and trailing whitespace. -/
def pyStrip (s : String) : String :=
  ⟨stripChars s.data⟩

/-- Python: `' '.join(context.args).strip()` (src/main.py line 73). -/
def promptOf (args : List String) : String :=
  pyStrip (String.intercalate " " args)

/-- Message of src/main.py lines 65-69 (no-argument usage hint). -/
def usageMsg : String :=
  "❌ Please provide a description after the command!\n\n**Example:** `/imagine a beautiful sunset over mountains`"

/-- Message of src/main.py line 76 (prompt shorter than 3 characters). -/
def shortMsg : String :=
  "❌ Please provide a more detailed description."

/-- Message of src/main.py line 80 (prompt longer than 1000 characters). -/
def longMsg : String :=
  "❌ Description too long. Please keep it under 1000 characters."

/-- Message of src/main.py line 84 (progress notification). -/
def generatingMsg : String :=
  "🎨 Generating your image... This may take a moment."

/-- Photo caption of src/main.py lines 111 and 127. -/
def captionOf (p : String) : String :=
  "🎨 **Generated:** " ++ p

/-- Text-fallback message of src/main.py lines 136-141. -/
def urlTextMsg (p u : String) : String :=
  "✅ **Image Generated Successfully!**\n\n**Prompt:** " ++ p ++
    "\n\n**Image URL:** " ++ u ++ "\n\n🔗 Click the link above to view your generated image!"

/-- Generic error message of src/main.py lines 146-148 (outer except). -/
def genericErrorMsg : String :=
  "❌ Sorry, there was an error generating your image. Please try again with a different prompt."

/-- Reminder message of src/main.py lines 152-156 (`handle_text_messages`). -/
def reminderMsg : String :=
  "🎨 To generate an image, use the `/imagine` command!\n\n**Example:** `/imagine a beautiful landscape`\n\nType /help for more information."

/-- Outer except block of src/main.py lines 144-148: edit the progress
notification to the generic error text.  Entered from the generation call
or URL extraction (outcome `generationFailed`); if the edit itself raises,
the exception escapes the handler (`raised`). -/
def genFailure (t : List Event) (o : Oracle) : Run :=
  { trace := t ++ [.editMsg genericErrorMsg o.editErrorOk],
    outcome := if o.editErrorOk then .generationFailed else .raised }

/-- Strategy C, src/main.py lines 135-141: edit the progress notification
to a text containing prompt and URL.  If that edit raises, the exception
propagates to the outer except of lines 144-148, which edits the generic
error text (outcome `failed`, or `raised` if that edit raises too). -/
def strategyC (p u : String) (t : List Event) (o : Oracle) : Run :=
  let tC := t ++ [.editMsg (urlTextMsg p u) o.editUrlTextOk]
  if o.editUrlTextOk then
    { trace := tC, outcome := .delivered .textFallback }
  else
    { trace := tC ++ [.editMsg genericErrorMsg o.editErrorOk],
      outcome := if o.editErrorOk then .failed else .raised }

/-- Strategy B, src/main.py lines 123-133: send the photo by remote URL,
then delete the progress notification.  Any exception in this block
(the send or the delete) is caught at line 132 and falls through to
Strategy C. -/
def strategyB (p u : String) (t : List Event) (o : Oracle) : Run :=
  let tB := t ++ [.sendPhotoUrl u (captionOf p) o.sendUrlOk]
  if o.sendUrlOk then
    let tB2 := tB ++ [.deleteMsg o.deleteBOk]
    if o.deleteBOk then { trace := tB2, outcome := .delivered .remoteUrl }
    else strategyC p u tB2 o
  else strategyC p u tB o

/-- Strategy A success arm, src/main.py lines 105-114: send the downloaded
bytes as a photo, then delete the progress notification.  Any exception in
the enclosing try (lines 100-118) is caught at line 120 and falls through
to Strategy B. -/
def strategyA (p u : String) (content : List Nat) (t : List Event) (o : Oracle) : Run :=
  let tA := t ++ [.sendPhotoBytes content (captionOf p) o.sendBytesOk]
  if o.sendBytesOk then
    let tA2 := tA ++ [.deleteMsg o.deleteAOk]
    if o.deleteAOk then { trace := tA2, outcome := .delivered .download }
    else strategyB p u tA2 o
  else strategyB p u tA o

/-- Body of the outer try of src/main.py lines 86-148, after the progress
notification succeeded: one generation call; on its failure (or on a
response with no URL to extract at line 96) the outer except; otherwise
the download attempt of line 101 and the Strategy A condition of line 104
(`status_code == 200 and len(content) > 0`), falling back to Strategy B
exactly when that try raises. -/
def mainFlow (p : String) (o : Oracle) : Run :=
  match o.genResult with
  | none => genFailure [.replyText generatingMsg o.progressOk, .genCall (genRequest p)] o
  | some urls =>
    match urls.head? with
    | none => genFailure [.replyText generatingMsg o.progressOk, .genCall (genRequest p)] o
    | some url =>
      match o.download with
      | some (status, content) =>
        if status = 200 ∧ 0 < content.length then
          strategyA p url content [.replyText generatingMsg o.progressOk,
            .genCall (genRequest p), .httpGet url o.download] o
        else
          strategyB p url [.replyText generatingMsg o.progressOk,
            .genCall (genRequest p), .httpGet url o.download] o
      | none =>
        strategyB p url [.replyText generatingMsg o.progressOk,
          .genCall (genRequest p), .httpGet url o.download] o

/-- The `/imagine` handler, src/main.py lines 60-148: empty-argument usage
hint, prompt length validation on `' '.join(args).strip()`, progress
notification, then `mainFlow`.  If the progress notification itself raises
(line 84, outside the try), the exception escapes the handler. -/
def imagine_command (args : List String) (o : Oracle) : Run :=
  if args = [] then
    { trace := [.replyText usageMsg o.usageReplyOk],
      outcome := if o.usageReplyOk then .usageHint else .raised }
  else if (promptOf args).length < 3 then
    { trace := [.replyText shortMsg o.shortReplyOk],
      outcome := if o.shortReplyOk then .validationError else .raised }
  else if 1000 < (promptOf args).length then
    { trace := [.replyText longMsg o.longReplyOk],
      outcome := if o.longReplyOk then .validationError else .raised }
  else if o.progressOk then mainFlow (promptOf args) o
  else { trace := [.replyText generatingMsg o.progressOk], outcome := .raised }

/-- The plain-text handler `handle_text_messages`, src/main.py lines
150-157: a single fixed reminder reply. -/
def handle_text_messages (o : Oracle) : Run :=
  { trace := [.replyText reminderMsg o.reminderOk],
    outcome := if o.reminderOk then .usageHint else .raised }

/-- Dispatch of a non-command text message per the registration in `main`,
src/main.py line 185: `MessageHandler(filters.TEXT & NOT filters.COMMAND,
handle_text_messages)` — the message text is ignored by the handler. -/
def textMessageRoute (_s : String) (o : Oracle) : Run :=
  handle_text_messages o

/-- Two consecutive invocations of the handler with the same arguments.
`imagine_command` reads only its arguments and the oracle (the module-level
`client` of src/main.py line 21 is constructed once and never mutated), so
the second invocation is the same function applied to its own oracle. -/
def runTwice (args : List String) (o1 o2 : Oracle) : Run × Run :=
  (imagine_command args o1, imagine_command args o2)

/-- Number of trace events satisfying a predicate. -/
def countP (q : Event → Bool) (t : List Event) : Nat :=
  (t.filter q).length

/-- Event is a call to the generation capability. -/
def isGenCall : Event → Bool
  | .genCall _ => true
  | _ => false

/-- Event is an HTTP download attempt. -/
def isHttpGet : Event → Bool
  | .httpGet _ _ => true
  | _ => false

/-- Event is a photo send attempt (by bytes or by URL). -/
def isPhotoSend : Event → Bool
  | .sendPhotoBytes _ _ _ => true
  | .sendPhotoUrl _ _ _ => true
  | _ => false

/-- Event is a photo send that succeeded. -/
def isPhotoSendOk : Event → Bool
  | .sendPhotoBytes _ _ k => k
  | .sendPhotoUrl _ _ k => k
  | _ => false

/-- Event is a photo-by-bytes send attempt. -/
def isBytesSend : Event → Bool
  | .sendPhotoBytes _ _ _ => true
  | _ => false

/-- Event is a deletion attempt of the progress notification. -/
def isDelete : Event → Bool
  | .deleteMsg _ => true
  | _ => false

/-- Event is an edit attempt of the progress notification. -/
def isEdit : Event → Bool
  | .editMsg _ _ => true
  | _ => false

/-- Event is a successful resolution of the progress notification:
a deletion or an edit that succeeded. -/
def isResolutionOk : Event → Bool
  | .deleteMsg k => k
  | .editMsg _ k => k
  | _ => false

/-- Event is the creation of the progress notification. -/
def isProgress : Event → Bool
  | .replyText m _ => m == generatingMsg
  | _ => false

/-- Whitespace tokenization with accumulator: Python `str.split()` with no
separator, as used by the bot framework to produce `context.args` from the
text after the command name — splits on runs of whitespace and never
yields empty tokens. -/
def splitAux : List Char → List Char → List (List Char)
  | [], acc => if acc = [] then [] else [acc.reverse]
  | c :: cs, acc =>
    if c.isWhitespace then
      if acc = [] then splitAux cs [] else acc.reverse :: splitAux cs []
    else splitAux cs (c :: acc)

/-- Python `text.split()`: the argument tokens of a `/imagine` message. -/
def pySplit (s : String) : List String :=
  (splitAux s.data []).map fun w => ⟨w⟩

/-- Oracle on which every external call succeeds: generation returns one
URL and the download returns status 200 with three bytes. -/
def oAllOk : Oracle :=
  { usageReplyOk := true, shortReplyOk := true, longReplyOk := true,
    progressOk := true,
    genResult := some ["https://img.example/x.png"],
    download := some (200, [1, 2, 3]),
    sendBytesOk := true, deleteAOk := true, sendUrlOk := true,
    deleteBOk := true, editUrlTextOk := true, editErrorOk := true,
    reminderOk := true }

/-- Oracle on which the artifact download returns status 500. -/
def oFetch500 : Oracle :=
  { oAllOk with download := some (500, [1]) }

/-- Oracle on which the generation call raises. -/
def oGenFail : Oracle :=
  { oAllOk with genResult := none }

/-- Oracle on which everything succeeds except the deletion of the
progress notification after the photo-by-bytes send. -/
def oDouble : Oracle :=
  { oAllOk with deleteAOk := false }

/-- Predicate on events that ignores every event kind a delivery strategy
or the outer except block can emit (photo sends, deletions, edits). -/
def deliveryBlind (q : Event → Bool) : Prop :=
  (∀ c cap k, q (.sendPhotoBytes c cap k) = false) ∧
  (∀ u cap k, q (.sendPhotoUrl u cap k) = false) ∧
  (∀ k, q (.deleteMsg k) = false) ∧
  (∀ m k, q (.editMsg m k) = false)

theorem countP_append (q : Event → Bool) (t1 t2 : List Event) :
    countP q (t1 ++ t2) = countP q t1 + countP q t2 := by
  simp [countP, List.filter_append]

theorem isGenCall_blind : deliveryBlind isGenCall :=
  ⟨fun _ _ _ => rfl, fun _ _ _ => rfl, fun _ => rfl, fun _ _ => rfl⟩

theorem isHttpGet_blind : deliveryBlind isHttpGet :=
  ⟨fun _ _ _ => rfl, fun _ _ _ => rfl, fun _ => rfl, fun _ _ => rfl⟩

theorem isProgress_blind : deliveryBlind isProgress :=
  ⟨fun _ _ _ => rfl, fun _ _ _ => rfl, fun _ => rfl, fun _ _ => rfl⟩

theorem countP_genFailure_blind {q : Event → Bool} {t : List Event} {o : Oracle}
    (hq : deliveryBlind q) : countP q (genFailure t o).trace = countP q t := by
  obtain ⟨h1, h2, h3, h4⟩ := hq
  simp [genFailure, countP_append, countP, h4]

theorem countP_strategyC_blind {q : Event → Bool} {p u : String} {t : List Event} {o : Oracle}
    (hq : deliveryBlind q) : countP q (strategyC p u t o).trace = countP q t := by
  obtain ⟨h1, h2, h3, h4⟩ := hq
  unfold strategyC
  split_ifs <;> simp [countP_append, countP, h4]

theorem countP_strategyB_blind {q : Event → Bool} {p u : String} {t : List Event} {o : Oracle}
    (hq : deliveryBlind q) : countP q (strategyB p u t o).trace = countP q t := by
  obtain ⟨h1, h2, h3, h4⟩ := hq
  unfold strategyB
  split_ifs with hU hD
  · simp [countP_append, countP, h2, h3]
  · rw [countP_strategyC_blind ⟨h1, h2, h3, h4⟩]
    simp [countP_append, countP, h2, h3]
  · rw [countP_strategyC_blind ⟨h1, h2, h3, h4⟩]
    simp [countP_append, countP, h2]

theorem countP_strategyA_blind {q : Event → Bool} {p u : String} {c : List Nat}
    {t : List Event} {o : Oracle} (hq : deliveryBlind q) :
    countP q (strategyA p u c t o).trace = countP q t := by
  obtain ⟨h1, h2, h3, h4⟩ := hq
  unfold strategyA
  split_ifs with hB hD
  · simp [countP_append, countP, h1, h3]
  · rw [countP_strategyB_blind ⟨h1, h2, h3, h4⟩]
    simp [countP_append, countP, h1, h3]
  · rw [countP_strategyB_blind ⟨h1, h2, h3, h4⟩]
    simp [countP_append, countP, h1]

theorem countP_mainFlow_blind {q : Event → Bool} {p : String} {o : Oracle}
    (hq : deliveryBlind q) (hh : ∀ u d, q (.httpGet u d) = false) :
    countP q (mainFlow p o).trace =
      countP q [.replyText generatingMsg o.progressOk, .genCall (genRequest p)] := by
  unfold mainFlow
  split
  · rw [countP_genFailure_blind hq]
  · split
    · rw [countP_genFailure_blind hq]
    · split
      · split_ifs
        · rw [countP_strategyA_blind hq]
          simp [countP, List.filter_cons, hh]
        · rw [countP_strategyB_blind hq]
          simp [countP, List.filter_cons, hh]
      · rw [countP_strategyB_blind hq]
        simp [countP, List.filter_cons, hh]

theorem imagine_inRange (args : List String) (o : Oracle) (h : args ≠ [])
    (h3 : ¬(promptOf args).length < 3) (h1000 : ¬1000 < (promptOf args).length)
    (hp : o.progressOk = true) :
    imagine_command args o = mainFlow (promptOf args) o := by
  unfold imagine_command
  rw [if_neg h, if_neg h3, if_neg h1000, if_pos hp]

theorem mainFlow_genFail (p : String) (o : Oracle)
    (hg : o.genResult = none ∨ o.genResult = some []) :
    mainFlow p o =
      genFailure [.replyText generatingMsg o.progressOk, .genCall (genRequest p)] o := by
  rcases hg with hg | hg <;> simp [mainFlow, hg]

theorem mainFlow_fetchOk (p url : String) (rest : List String) (c : List Nat) (o : Oracle)
    (hg : o.genResult = some (url :: rest)) (hd : o.download = some (200, c)) (hc : c ≠ []) :
    mainFlow p o = strategyA p url c
      [.replyText generatingMsg o.progressOk, .genCall (genRequest p),
        .httpGet url (some (200, c))] o := by
  simp [mainFlow, hg, hd, List.length_pos, hc]

theorem mainFlow_fetchFail (p url : String) (rest : List String) (s : Nat) (c : List Nat)
    (o : Oracle) (hg : o.genResult = some (url :: rest)) (hd : o.download = some (s, c))
    (hf : s ≠ 200 ∨ c.length = 0) :
    mainFlow p o = strategyB p url
      [.replyText generatingMsg o.progressOk, .genCall (genRequest p),
        .httpGet url (some (s, c))] o := by
  have hcond : ¬(s = 200 ∧ 0 < c.length) := by
    rcases hf with hf | hf <;> omega
  simp [mainFlow, hg, hd, hcond]

theorem mainFlow_fetchNone (p url : String) (rest : List String) (o : Oracle)
    (hg : o.genResult = some (url :: rest)) (hd : o.download = none) :
    mainFlow p o = strategyB p url
      [.replyText generatingMsg o.progressOk, .genCall (genRequest p), .httpGet url none] o := by
  simp [mainFlow, hg, hd]

theorem countGen_mainFlow (p : String) (o : Oracle) :
    countP isGenCall (mainFlow p o).trace = 1 := by
  rw [countP_mainFlow_blind isGenCall_blind (fun _ _ => rfl)]
  rfl

theorem countProgress_mainFlow (p : String) (o : Oracle) :
    countP isProgress (mainFlow p o).trace = 1 := by
  rw [countP_mainFlow_blind isProgress_blind (fun _ _ => rfl)]
  simp [countP, List.filter_cons, isProgress, isGenCall]

theorem strategyC_outcome (p u : String) (t : List Event) (o : Oracle) :
    (strategyC p u t o).outcome ≠ .validationError ∧
      (strategyC p u t o).outcome ≠ .usageHint := by
  unfold strategyC
  split_ifs <;> simp

theorem strategyB_outcome (p u : String) (t : List Event) (o : Oracle) :
    (strategyB p u t o).outcome ≠ .validationError ∧
      (strategyB p u t o).outcome ≠ .usageHint := by
  unfold strategyB
  split_ifs <;> first
    | exact strategyC_outcome p u _ o
    | simp

theorem strategyA_outcome (p u : String) (c : List Nat) (t : List Event) (o : Oracle) :
    (strategyA p u c t o).outcome ≠ .validationError ∧
      (strategyA p u c t o).outcome ≠ .usageHint := by
  unfold strategyA
  split_ifs <;> first
    | exact strategyB_outcome p u _ o
    | simp

theorem genFailure_outcome (t : List Event) (o : Oracle) :
    (genFailure t o).outcome ≠ .validationError ∧ (genFailure t o).outcome ≠ .usageHint := by
  unfold genFailure
  split_ifs <;> simp

theorem mainFlow_outcome (p : String) (o : Oracle) :
    (mainFlow p o).outcome ≠ .validationError ∧ (mainFlow p o).outcome ≠ .usageHint := by
  unfold mainFlow
  split
  · exact genFailure_outcome _ o
  · split
    · exact genFailure_outcome _ o
    · split
      · split_ifs
        · exact strategyA_outcome _ _ _ _ o
        · exact strategyB_outcome _ _ _ o
      · exact strategyB_outcome _ _ _ o

theorem countRes_strategyC (p u : String) (t : List Event) (o : Oracle)
    (hC : o.editUrlTextOk = true) :
    countP isResolutionOk (strategyC p u t o).trace = countP isResolutionOk t + 1 := by
  unfold strategyC
  rw [if_pos hC]
  simp [countP_append, countP, List.filter_cons, hC, isResolutionOk]

theorem countRes_strategyB (p u : String) (t : List Event) (o : Oracle)
    (hB : o.deleteBOk = true) (hC : o.editUrlTextOk = true) :
    countP isResolutionOk (strategyB p u t o).trace = countP isResolutionOk t + 1 := by
  unfold strategyB
  split_ifs with hU
  · simp [countP_append, countP, List.filter_cons, hB, isResolutionOk]
  · rw [countRes_strategyC _ _ _ _ hC]
    simp [countP_append, countP, List.filter_cons, isResolutionOk]

theorem countRes_strategyA (p u : String) (c : List Nat) (t : List Event) (o : Oracle)
    (hA : o.deleteAOk = true) (hB : o.deleteBOk = true) (hC : o.editUrlTextOk = true) :
    countP isResolutionOk (strategyA p u c t o).trace = countP isResolutionOk t + 1 := by
  unfold strategyA
  split_ifs with hS
  · simp [countP_append, countP, List.filter_cons, hA, isResolutionOk]
  · rw [countRes_strategyB _ _ _ _ hB hC]
    simp [countP_append, countP, List.filter_cons, isResolutionOk]

theorem countRes_genFailure (t : List Event) (o : Oracle) (hE : o.editErrorOk = true) :
    countP isResolutionOk (genFailure t o).trace = countP isResolutionOk t + 1 := by
  unfold genFailure
  simp [countP_append, countP, List.filter_cons, hE, isResolutionOk]

theorem photoOk_strategyC (p u : String) (t : List Event) (o : Oracle) :
    countP isPhotoSendOk (strategyC p u t o).trace = countP isPhotoSendOk t := by
  unfold strategyC
  split_ifs <;> simp [countP_append, countP, List.filter_cons, isPhotoSendOk]

theorem photoOk_strategyB_le (p u : String) (t : List Event) (o : Oracle) :
    countP isPhotoSendOk (strategyB p u t o).trace ≤ countP isPhotoSendOk t + 1 := by
  unfold strategyB
  split_ifs with hU hD
  · simp [countP_append, countP, List.filter_cons, isPhotoSendOk, hU]
  · rw [photoOk_strategyC]
    simp [countP_append, countP, List.filter_cons, isPhotoSendOk, hU]
  · rw [photoOk_strategyC]
    simp [countP_append, countP, List.filter_cons, isPhotoSendOk, hU]

theorem photoOk_strategyA_le (p u : String) (c : List Nat) (t : List Event) (o : Oracle)
    (hA : o.deleteAOk = true) :
    countP isPhotoSendOk (strategyA p u c t o).trace ≤ countP isPhotoSendOk t + 1 := by
  unfold strategyA
  split_ifs with hS
  · simp [countP_append, countP, List.filter_cons, isPhotoSendOk, hS, hA]
  · calc countP isPhotoSendOk (strategyB p u
          (t ++ [.sendPhotoBytes c (captionOf p) o.sendBytesOk]) o).trace
        ≤ countP isPhotoSendOk (t ++ [.sendPhotoBytes c (captionOf p) o.sendBytesOk]) + 1 :=
          photoOk_strategyB_le _ _ _ o
      _ = countP isPhotoSendOk t + 1 := by
          simp [countP_append, countP, List.filter_cons, isPhotoSendOk, hS]

theorem photoOk_genFailure (t : List Event) (o : Oracle) :
    countP isPhotoSendOk (genFailure t o).trace = countP isPhotoSendOk t := by
  unfold genFailure
  simp [countP_append, countP, List.filter_cons, isPhotoSendOk]

theorem strategyC_mem (p u : String) (t : List Event) (o : Oracle) (e : Event) (he : e ∈ t) :
    e ∈ (strategyC p u t o).trace := by
  unfold strategyC
  split_ifs <;> simp [he]

theorem strategyB_mem_send (p u : String) (t : List Event) (o : Oracle) :
    Event.sendPhotoUrl u (captionOf p) o.sendUrlOk ∈ (strategyB p u t o).trace := by
  unfold strategyB
  split_ifs with hU hD
  · simp
  · exact strategyC_mem _ _ _ _ _ (by simp)
  · exact strategyC_mem _ _ _ _ _ (by simp)

theorem strategyB_ok (p u : String) (t : List Event) (o : Oracle)
    (hU : o.sendUrlOk = true) (hD : o.deleteBOk = true) :
    strategyB p u t o =
      { trace := t ++ [.sendPhotoUrl u (captionOf p) true, .deleteMsg true],
        outcome := .delivered .remoteUrl } := by
  unfold strategyB
  rw [if_pos hU, if_pos hD, hU, hD]
  simp

theorem strategyA_ok (p u : String) (c : List Nat) (t : List Event) (o : Oracle)
    (hS : o.sendBytesOk = true) (hA : o.deleteAOk = true) :
    strategyA p u c t o =
      { trace := t ++ [.sendPhotoBytes c (captionOf p) true, .deleteMsg true],
        outcome := .delivered .download } := by
  unfold strategyA
  rw [if_pos hS, if_pos hA, hS, hA]
  simp

theorem genFailure_ok (t : List Event) (o : Oracle) (hE : o.editErrorOk = true) :
    genFailure t o =
      { trace := t ++ [.editMsg genericErrorMsg true], outcome := .generationFailed } := by
  unfold genFailure
  rw [hE]
  simp

theorem splitAux_sound : ∀ (cs acc : List Char), (∀ c ∈ acc, c.isWhitespace = false) →
    ∀ w ∈ splitAux cs acc, w ≠ [] ∧ ∀ c ∈ w, c.isWhitespace = false := by
  intro cs
  induction cs with
  | nil =>
    intro acc hacc w hw
    unfold splitAux at hw
    split_ifs at hw with hn
    · simp at hw
    · simp only [List.mem_singleton] at hw
      subst hw
      refine ⟨by simpa using hn, ?_⟩
      intro c hc
      exact hacc c (List.mem_reverse.mp hc)
  | cons c cs ih =>
    intro acc hacc w hw
    unfold splitAux at hw
    split_ifs at hw with hws hn
    · exact ih [] (by simp) w hw
    · rcases List.mem_cons.mp hw with hw | hw
      · subst hw
        refine ⟨by simpa using hn, ?_⟩
        intro d hd
        exact hacc d (List.mem_reverse.mp hd)
      · exact ih [] (by simp) w hw
    · refine ih (c :: acc) ?_ w hw
      intro d hd
      rcases List.mem_cons.mp hd with hd | hd
      · subst hd
        simpa using hws
      · exact hacc d hd

theorem pySplit_sound (s : String) : ∀ w ∈ pySplit s,
    w.data ≠ [] ∧ ∀ c ∈ w.data, c.isWhitespace = false := by
  intro w hw
  unfold pySplit at hw
  rcases List.mem_map.mp hw with ⟨l, hl, hlw⟩
  have h := splitAux_sound s.data [] (by simp) l hl
  subst hlw
  exact h

theorem countGen_imagine (args : List String) (o : Oracle) (h : args ≠ [])
    (h3 : ¬(promptOf args).length < 3) (h1000 : ¬1000 < (promptOf args).length)
    (hp : o.progressOk = true) :
    countP isGenCall (imagine_command args o).trace = 1 := by
  rw [imagine_inRange args o h h3 h1000 hp]
  exact countGen_mainFlow _ _

theorem countProgress_imagine (args : List String) (o : Oracle) (h : args ≠ [])
    (h3 : ¬(promptOf args).length < 3) (h1000 : ¬1000 < (promptOf args).length) :
    countP isProgress (imagine_command args o).trace = 1 := by
  unfold imagine_command
  rw [if_neg h, if_neg h3, if_neg h1000]
  split_ifs with hp
  · exact countProgress_mainFlow _ _
  · simp [countP, List.filter_cons, isProgress]

theorem imagine_not_validation (args : List String) (o : Oracle) (h : args ≠ [])
    (h3 : ¬(promptOf args).length < 3) (h1000 : ¬1000 < (promptOf args).length) :
    (imagine_command args o).outcome ≠ .validationError := by
  unfold imagine_command
  rw [if_neg h, if_neg h3, if_neg h1000]
  split_ifs with hp
  · exact (mainFlow_outcome _ _).1
  · simp

theorem countRes_mainFlow (p : String) (o : Oracle) (hA : o.deleteAOk = true)
    (hB : o.deleteBOk = true) (hC : o.editUrlTextOk = true) (hE : o.editErrorOk = true) :
    countP isResolutionOk (mainFlow p o).trace = 1 := by
  unfold mainFlow
  split
  · rw [countRes_genFailure _ _ hE]
    simp [countP, List.filter_cons, isResolutionOk]
  · split
    · rw [countRes_genFailure _ _ hE]
      simp [countP, List.filter_cons, isResolutionOk]
    · split
      · split_ifs
        · rw [countRes_strategyA _ _ _ _ _ hA hB hC]
          simp [countP, List.filter_cons, isResolutionOk]
        · rw [countRes_strategyB _ _ _ _ hB hC]
          simp [countP, List.filter_cons, isResolutionOk]
      · rw [countRes_strategyB _ _ _ _ hB hC]
        simp [countP, List.filter_cons, isResolutionOk]

theorem photoOk_mainFlow (p : String) (o : Oracle) (hA : o.deleteAOk = true) :
    countP isPhotoSendOk (mainFlow p o).trace ≤ 1 := by
  unfold mainFlow
  split
  · rw [photoOk_genFailure]
    simp [countP, List.filter_cons, isPhotoSendOk]
  · split
    · rw [photoOk_genFailure]
      simp [countP, List.filter_cons, isPhotoSendOk]
    · split
      · split_ifs
        · refine le_trans (photoOk_strategyA_le _ _ _ _ _ hA) ?_
          simp [countP, List.filter_cons, isPhotoSendOk]
        · refine le_trans (photoOk_strategyB_le _ _ _ _) ?_
          simp [countP, List.filter_cons, isPhotoSendOk]
      · refine le_trans (photoOk_strategyB_le _ _ _ _) ?_
        simp [countP, List.filter_cons, isPhotoSendOk]

/-- C1: when the generation call has succeeded but the artifact fetch came
back with a non-success status (404, 500, any non-200) or a zero-length
body, the pipeline attempts Strategy B — a photo send that passes the
remote URL to the sink — before any terminal outcome; and when that
URL-based send and the notification deletion that concludes Strategy B
succeed, the outcome is Delivered via RemoteUrl with the progress
notification deleted. -/
theorem c1_fetch_failure_uses_strategyB (args : List String) (o : Oracle)
    (url : String) (rest : List String) (s : Nat) (c : List Nat)
    (h : args ≠ []) (h3 : ¬(promptOf args).length < 3)
    (h1000 : ¬1000 < (promptOf args).length) (hp : o.progressOk = true)
    (hg : o.genResult = some (url :: rest)) (hd : o.download = some (s, c))
    (hf : s ≠ 200 ∨ c.length = 0) :
    Event.sendPhotoUrl url (captionOf (promptOf args)) o.sendUrlOk
      ∈ (imagine_command args o).trace ∧
    (o.sendUrlOk = true → o.deleteBOk = true →
      (imagine_command args o).outcome = .delivered .remoteUrl ∧
      Event.deleteMsg true ∈ (imagine_command args o).trace) := by
  rw [imagine_inRange args o h h3 h1000 hp,
    mainFlow_fetchFail (promptOf args) url rest s c o hg hd hf]
  refine ⟨strategyB_mem_send _ _ _ _, fun hU hD => ?_⟩
  rw [strategyB_ok _ _ _ _ hU hD]
  simp

/-- C1 witness: concrete download failure with status 500 on an otherwise
healthy oracle; Strategy B is attempted and delivers via the remote URL. -/
theorem c1_witness :
    (["a", "cat"] : List String) ≠ [] ∧
    (Event.sendPhotoUrl "https://img.example/x.png"
        (captionOf (promptOf ["a", "cat"])) oFetch500.sendUrlOk
      ∈ (imagine_command ["a", "cat"] oFetch500).trace ∧
    (oFetch500.sendUrlOk = true → oFetch500.deleteBOk = true →
      (imagine_command ["a", "cat"] oFetch500).outcome = .delivered .remoteUrl ∧
      Event.deleteMsg true ∈ (imagine_command ["a", "cat"] oFetch500).trace)) :=
  ⟨by decide,
    c1_fetch_failure_uses_strategyB ["a", "cat"] oFetch500 "https://img.example/x.png"
      [] 500 [1] (by decide) (by decide) (by decide) rfl rfl rfl (Or.inl (by decide))⟩

/-- C2 counterexample: on an oracle where everything succeeds except the
deletion of the progress notification after the successful photo-by-bytes
send (src/main.py line 113), the exception from the deletion is caught by
the except of line 120 and Strategy B re-sends the photo by URL: two photo
sends succeed within one request and the deletion is attempted twice,
refuting the claim that the artifact is never sent to the user more than
once. -/
theorem c2_double_send_counterexample :
    countP isPhotoSendOk (imagine_command ["a", "cat"] oDouble).trace = 2 ∧
    countP isDelete (imagine_command ["a", "cat"] oDouble).trace = 2 ∧
    (imagine_command ["a", "cat"] oDouble).outcome = .delivered .remoteUrl := by
  decide

/-- C2 (amended): provided every deletion and edit of the progress
notification that the handler invokes succeeds, the notification is
resolved exactly once (one successful deletion or edit) and at most one
photo send succeeds, on every path through the pipeline after validation. -/
theorem c2_resolved_once_amended (args : List String) (o : Oracle) (h : args ≠ [])
    (h3 : ¬(promptOf args).length < 3) (h1000 : ¬1000 < (promptOf args).length)
    (hp : o.progressOk = true) (hA : o.deleteAOk = true) (hB : o.deleteBOk = true)
    (hC : o.editUrlTextOk = true) (hE : o.editErrorOk = true) :
    countP isResolutionOk (imagine_command args o).trace = 1 ∧
    countP isPhotoSendOk (imagine_command args o).trace ≤ 1 := by
  rw [imagine_inRange args o h h3 h1000 hp]
  exact ⟨countRes_mainFlow _ _ hA hB hC hE, photoOk_mainFlow _ _ hA⟩

/-- C2 (amended) witness: on the all-success oracle the run resolves the
notification exactly once and sends at most one photo. -/
theorem c2_witness :
    (["a", "cat"] : List String) ≠ [] ∧
    countP isResolutionOk (imagine_command ["a", "cat"] oAllOk).trace = 1 ∧
    countP isPhotoSendOk (imagine_command ["a", "cat"] oAllOk).trace ≤ 1 :=
  ⟨by decide,
    c2_resolved_once_amended ["a", "cat"] oAllOk (by decide) (by decide) (by decide)
      rfl rfl rfl rfl rfl⟩

/-- C3: a non-empty argument list whose joined and trimmed prompt is
shorter than 3 characters (the empty prompt included) or longer than 1000
characters yields exactly one corrective text reply and nothing else — no
generation call, no download, no progress notification; a prompt of
trimmed length in the range 3 to 1000 is not rejected by validation and
its progress notification is created. -/
theorem c3_validation_bounds (args : List String) (o : Oracle) (h : args ≠ []) :
    ((promptOf args).length < 3 →
      (imagine_command args o).trace = [.replyText shortMsg o.shortReplyOk] ∧
      countP isGenCall (imagine_command args o).trace = 0 ∧
      countP isHttpGet (imagine_command args o).trace = 0 ∧
      countP isProgress (imagine_command args o).trace = 0 ∧
      (o.shortReplyOk = true → (imagine_command args o).outcome = .validationError)) ∧
    (1000 < (promptOf args).length →
      (imagine_command args o).trace = [.replyText longMsg o.longReplyOk] ∧
      countP isGenCall (imagine_command args o).trace = 0 ∧
      countP isHttpGet (imagine_command args o).trace = 0 ∧
      countP isProgress (imagine_command args o).trace = 0 ∧
      (o.longReplyOk = true → (imagine_command args o).outcome = .validationError)) ∧
    (3 ≤ (promptOf args).length → (promptOf args).length ≤ 1000 →
      (imagine_command args o).outcome ≠ .validationError ∧
      countP isProgress (imagine_command args o).trace = 1) := by
  refine ⟨fun hlt => ?_, fun hgt => ?_, fun hge hle => ?_⟩
  · unfold imagine_command
    rw [if_neg h, if_pos hlt]
    refine ⟨rfl, rfl, rfl, ?_, fun hok => ?_⟩
    · simp [countP, List.filter_cons, isProgress, shortMsg, generatingMsg]
    · simp [hok]
  · unfold imagine_command
    rw [if_neg h, if_neg (by omega : ¬(promptOf args).length < 3), if_pos hgt]
    refine ⟨rfl, rfl, rfl, ?_, fun hok => ?_⟩
    · simp [countP, List.filter_cons, isProgress, longMsg, generatingMsg]
    · simp [hok]
  · have h3 : ¬(promptOf args).length < 3 := by omega
    have h1000 : ¬1000 < (promptOf args).length := by omega
    exact ⟨imagine_not_validation args o h h3 h1000,
      countProgress_imagine args o h h3 h1000⟩

/-- C3 witness: the one-character prompt is rejected with the corrective
reply and no external call, while a five-character prompt is accepted. -/
theorem c3_witness :
    ((["x"] : List String) ≠ [] ∧ (promptOf ["x"]).length < 3 ∧
      (imagine_command ["x"] oAllOk).trace = [.replyText shortMsg oAllOk.shortReplyOk] ∧
      countP isGenCall (imagine_command ["x"] oAllOk).trace = 0) ∧
    ((["a", "cat"] : List String) ≠ [] ∧
      (imagine_command ["a", "cat"] oAllOk).outcome ≠ .validationError) :=
  ⟨⟨by decide, by decide,
    ((c3_validation_bounds ["x"] oAllOk (by decide)).1 (by decide)).1,
    ((c3_validation_bounds ["x"] oAllOk (by decide)).1 (by decide)).2.1⟩,
  ⟨by decide,
    ((c3_validation_bounds ["a", "cat"] oAllOk (by decide)).2.2 (by decide) (by decide)).1⟩⟩

/-- C4: when the generation call raises (network error, non-success status
— both modelled by `genResult = none`) or returns a response with no
usable URL (`genResult = some []`, on which the `data[0]` access of
src/main.py line 96 raises), the run performs no download and no delivery
strategy, replaces the progress notification exactly once with the generic
error message, and the outcome is GenerationFailed (assuming that error
edit itself succeeds). -/
theorem c4_generation_failure (args : List String) (o : Oracle) (h : args ≠ [])
    (h3 : ¬(promptOf args).length < 3) (h1000 : ¬1000 < (promptOf args).length)
    (hp : o.progressOk = true)
    (hg : o.genResult = none ∨ o.genResult = some []) (hE : o.editErrorOk = true) :
    (imagine_command args o).trace =
      [.replyText generatingMsg true, .genCall (genRequest (promptOf args)),
        .editMsg genericErrorMsg true] ∧
    (imagine_command args o).outcome = .generationFailed ∧
    countP isHttpGet (imagine_command args o).trace = 0 ∧
    countP isPhotoSend (imagine_command args o).trace = 0 ∧
    countP isDelete (imagine_command args o).trace = 0 ∧
    countP isEdit (imagine_command args o).trace = 1 := by
  rw [imagine_inRange args o h h3 h1000 hp, mainFlow_genFail _ _ hg,
    genFailure_ok _ _ hE, hp]
  exact ⟨by simp, rfl, rfl, rfl, rfl, rfl⟩

/-- C4 witness: concrete oracle whose generation call raises; the run edits
the notification once with the generic error text and stops. -/
theorem c4_witness :
    (["a", "cat"] : List String) ≠ [] ∧
    (oGenFail.genResult = none ∨ oGenFail.genResult = some []) ∧
    (imagine_command ["a", "cat"] oGenFail).outcome = .generationFailed ∧
    countP isHttpGet (imagine_command ["a", "cat"] oGenFail).trace = 0 ∧
    countP isEdit (imagine_command ["a", "cat"] oGenFail).trace = 1 :=
  ⟨by decide, Or.inl rfl,
    (c4_generation_failure ["a", "cat"] oGenFail (by decide) (by decide) (by decide)
      rfl (Or.inl rfl) rfl).2.1,
    (c4_generation_failure ["a", "cat"] oGenFail (by decide) (by decide) (by decide)
      rfl (Or.inl rfl) rfl).2.2.1,
    (c4_generation_failure ["a", "cat"] oGenFail (by decide) (by decide) (by decide)
      rfl (Or.inl rfl) rfl).2.2.2.2.2⟩

/-- C5: when generation succeeds and the artifact fetch returns status 200
with a non-empty body, and the photo-by-bytes send and the notification
deletion succeed, the run consists of exactly the progress notification,
one generation call, one download, one photo send built from the fetched
bytes with a caption containing the prompt, and one deletion; the outcome
is Delivered via Download and Strategies B and C never run (no URL photo
send, no edit). -/
theorem c5_download_delivery (args : List String) (o : Oracle)
    (url : String) (rest : List String) (c : List Nat)
    (h : args ≠ []) (h3 : ¬(promptOf args).length < 3)
    (h1000 : ¬1000 < (promptOf args).length) (hp : o.progressOk = true)
    (hg : o.genResult = some (url :: rest)) (hd : o.download = some (200, c))
    (hc : c ≠ []) (hS : o.sendBytesOk = true) (hA : o.deleteAOk = true) :
    (imagine_command args o).trace =
      [.replyText generatingMsg true, .genCall (genRequest (promptOf args)),
        .httpGet url (some (200, c)),
        .sendPhotoBytes c (captionOf (promptOf args)) true, .deleteMsg true] ∧
    (imagine_command args o).outcome = .delivered .download ∧
    captionOf (promptOf args) = "🎨 **Generated:** " ++ promptOf args ∧
    countP isPhotoSend (imagine_command args o).trace = 1 ∧
    countP isBytesSend (imagine_command args o).trace = 1 ∧
    countP isDelete (imagine_command args o).trace = 1 ∧
    countP isEdit (imagine_command args o).trace = 0 := by
  rw [imagine_inRange args o h h3 h1000 hp,
    mainFlow_fetchOk (promptOf args) url rest c o hg hd hc,
    strategyA_ok _ _ _ _ _ hS hA, hp]
  exact ⟨by simp, rfl, rfl, rfl, rfl, rfl, rfl⟩

/-- C5 witness: the all-success oracle delivers via download with one
photo-by-bytes send and one deletion. -/
theorem c5_witness :
    (["a", "cat"] : List String) ≠ [] ∧ ([1, 2, 3] : List Nat) ≠ [] ∧
    (imagine_command ["a", "cat"] oAllOk).outcome = .delivered .download ∧
    countP isPhotoSend (imagine_command ["a", "cat"] oAllOk).trace = 1 ∧
    countP isDelete (imagine_command ["a", "cat"] oAllOk).trace = 1 :=
  ⟨by decide, by decide,
    (c5_download_delivery ["a", "cat"] oAllOk "https://img.example/x.png" [] [1, 2, 3]
      (by decide) (by decide) (by decide) rfl rfl rfl (by decide) rfl rfl).2.1,
    (c5_download_delivery ["a", "cat"] oAllOk "https://img.example/x.png" [] [1, 2, 3]
      (by decide) (by decide) (by decide) rfl rfl rfl (by decide) rfl rfl).2.2.2.1,
    (c5_download_delivery ["a", "cat"] oAllOk "https://img.example/x.png" [] [1, 2, 3]
      (by decide) (by decide) (by decide) rfl rfl rfl (by decide) rfl rfl).2.2.2.2.2.1⟩

/-- C6: once validation passes and the progress notification is posted,
exactly one generation call appears in the trace — never zero, never more,
on every oracle, whichever strategy succeeds or fails afterwards. -/
theorem c6_single_generation_call (args : List String) (o : Oracle) (h : args ≠ [])
    (h3 : ¬(promptOf args).length < 3) (h1000 : ¬1000 < (promptOf args).length)
    (hp : o.progressOk = true) :
    countP isGenCall (imagine_command args o).trace = 1 :=
  countGen_imagine args o h h3 h1000 hp

/-- C6 witness: one generation call on the all-success oracle. -/
theorem c6_witness :
    (["a", "cat"] : List String) ≠ [] ∧
    countP isGenCall (imagine_command ["a", "cat"] oAllOk).trace = 1 :=
  ⟨by decide,
    c6_single_generation_call ["a", "cat"] oAllOk (by decide) (by decide) (by decide) rfl⟩

/-- C7: the generation request the handler actually submits (src/main.py
lines 89-94) carries the prompt, n = 1 and a model identifier as the claim
says, but its size field is the string containing an asterisk between the
two numbers, not the claimed well-formed size string with the letter x
that the images API documents — evaluated here on the concrete prompt
formed from the arguments of a `/imagine` message. -/
theorem c7_generation_request_size :
    genRequest (promptOf ["a", "cat"]) =
      { model := "provider-1/FLUX.1-kontext-pro", prompt := "a cat", n := 1,
        size := "1024*1024" } ∧
    Event.genCall (genRequest (promptOf ["a", "cat"]))
      ∈ (imagine_command ["a", "cat"] oAllOk).trace ∧
    (genRequest (promptOf ["a", "cat"])).size ≠ "1024x1024" := by
  decide

/-- C8: two invocations of the handler with the same arguments are two
independent evaluations: each result is a function of its own oracle only,
and together they perform exactly two generation calls — no caching, no
state carried from the first invocation into the second. -/
theorem c8_independent_invocations (args : List String) (o1 o2 : Oracle) (h : args ≠ [])
    (h3 : ¬(promptOf args).length < 3) (h1000 : ¬1000 < (promptOf args).length)
    (hp1 : o1.progressOk = true) (hp2 : o2.progressOk = true) :
    (runTwice args o1 o2).1 = imagine_command args o1 ∧
    (runTwice args o1 o2).2 = imagine_command args o2 ∧
    countP isGenCall ((runTwice args o1 o2).1.trace ++ (runTwice args o1 o2).2.trace) = 2 := by
  refine ⟨rfl, rfl, ?_⟩
  rw [countP_append,
    show (runTwice args o1 o2).1 = imagine_command args o1 from rfl,
    show (runTwice args o1 o2).2 = imagine_command args o2 from rfl,
    countGen_imagine args o1 h h3 h1000 hp1,
    countGen_imagine args o2 h h3 h1000 hp2]

/-- C8 witness: two runs of the same prompt — one delivering via download,
one falling back after a 500 — make exactly two generation calls. -/
theorem c8_witness :
    (["a", "cat"] : List String) ≠ [] ∧
    countP isGenCall ((runTwice ["a", "cat"] oAllOk oFetch500).1.trace ++
      (runTwice ["a", "cat"] oAllOk oFetch500).2.trace) = 2 :=
  ⟨by decide,
    (c8_independent_invocations ["a", "cat"] oAllOk oFetch500 (by decide) (by decide)
      (by decide) rfl rfl).2.2⟩

/-- C9: the prompt that validation and the generation call operate on is
formed by joining the argument tokens with single spaces and stripping the
result; the tokens produced by whitespace-splitting the original message
text are non-empty and contain no whitespace, so whitespace runs in the
original text collapse to single spaces in the prompt; and a `/imagine`
with no arguments is answered with the usage-hint reply alone — no
generation call, no download, no progress notification. -/
theorem c9_prompt_tokenization (text : String) (o : Oracle) :
    promptOf (pySplit text) = pyStrip (String.intercalate " " (pySplit text)) ∧
    (∀ w ∈ pySplit text, w.data ≠ [] ∧ ∀ c ∈ w.data, c.isWhitespace = false) ∧
    (imagine_command [] o).trace = [.replyText usageMsg o.usageReplyOk] ∧
    countP isGenCall (imagine_command [] o).trace = 0 ∧
    countP isHttpGet (imagine_command [] o).trace = 0 ∧
    countP isProgress (imagine_command [] o).trace = 0 ∧
    (o.usageReplyOk = true → (imagine_command [] o).outcome = .usageHint) := by
  refine ⟨rfl, pySplit_sound text, rfl, rfl, rfl, ?_, fun hok => ?_⟩
  · simp [imagine_command, countP, List.filter_cons, isProgress, usageMsg, generatingMsg]
  · simp [imagine_command, hok]

/-- C9 witness: the message text with a three-space run splits into clean
tokens, and the token list joined with single spaces is the prompt. -/
theorem c9_witness :
    ("a" ∈ pySplit "a   cat") ∧
    ("a" : String).data ≠ [] ∧ (∀ c ∈ ("a" : String).data, c.isWhitespace = false) :=
  ⟨by decide,
    ((c9_prompt_tokenization "a   cat" oAllOk).2.1 "a" (by decide)).1,
    ((c9_prompt_tokenization "a   cat" oAllOk).2.1 "a" (by decide)).2⟩

/-- C10: a non-command text message is routed to `handle_text_messages`,
which sends exactly the fixed reminder pointing at the `/imagine` command
and performs no generation call, no download, and no photo send — plain
text is never treated as a prompt. -/
theorem c10_plain_text_reminder (s : String) (o : Oracle) :
    (textMessageRoute s o).trace = [.replyText reminderMsg o.reminderOk] ∧
    countP isGenCall (textMessageRoute s o).trace = 0 ∧
    countP isHttpGet (textMessageRoute s o).trace = 0 ∧
    countP isPhotoSend (textMessageRoute s o).trace = 0 :=
  ⟨rfl, rfl, rfl, rfl⟩

end DarkImageBot
